import Mathlib

/-!
Verification of the finfocus AWS public-pricing plugin: resource-identity
resolution, actual-cost pro-rating, and the recommendation heuristics.

The Go code under `internal/plugin` is embedded shallowly:
- `map[string]string` becomes an association list (`TagMap`),
- `float64` prices, costs and fractional hours become `ℚ`,
- fallible Go functions returning `(T, error)` become `Except String T`,
- `(float64, bool)` pricing getters become `Option ℚ`,
- time instants become `ℚ` measured in hours, so that Go's
  `end.Sub(start).Hours()` is plain subtraction.

Functions whose Go sources are not part of the plugin package snapshot
(only their tests, callers or design documents are) carry a doc comment
starting `Modelled from the spec:` and follow the specification's words.
-/

namespace AWSPublic

/-- Association-list model of a Go `map[string]string`. Go map reads of a
missing key yield the zero value `""`. -/
abbrev TagMap := List (String × String)

/-- `tags[k]` in Go: the stored value, or `""` when the key is absent. -/
def TagMap.get (m : TagMap) (k : String) : String :=
  match m.find? (fun kv => kv.1 == k) with
  | some kv => kv.2
  | none => ""

/-- `_, ok := tags[k]` in Go: whether the key is present. -/
def TagMap.hasKey (m : TagMap) (k : String) : Bool :=
  (m.find? (fun kv => kv.1 == k)).isSome

/-- Keyed lookup returning `Option`, for the fixed family-mapping tables. -/
def TagMap.lookup (m : TagMap) (k : String) : Option String :=
  (m.find? (fun kv => kv.1 == k)).map (fun kv => kv.2)

/-- Splitting accumulator: splits a character list at every occurrence
of the separator, like Go `strings.Split` with a one-character
separator. -/
def splitOnCharAux (c : Char) : List Char → List Char → List (List Char)
  | [], acc => [acc.reverse]
  | x :: xs, acc =>
    if x = c then acc.reverse :: splitOnCharAux c xs []
    else splitOnCharAux c xs (x :: acc)

/-- Go `strings.Split(s, sep)` for the one-character separators used by
the parser (`:`, `/`, `.`). -/
def splitStringOnChar (c : Char) (s : String) : List String :=
  (splitOnCharAux c s.data []).map String.mk

/-- Digit-run accumulator for `atoi`. -/
def parseDigitsAux : List Char → Nat → Option Nat
  | [], acc => some acc
  | c :: cs, acc =>
    if c.isDigit then parseDigitsAux cs (acc * 10 + (c.toNat - 48)) else none

/-- Go `strconv.Atoi`: an optional sign followed by a non-empty digit
run (overflow aside, which no claim touches). -/
def atoi (s : String) : Option Int :=
  match s.data with
  | [] => none
  | '-' :: cs => if cs = [] then none else (parseDigitsAux cs 0).map (fun n => -(n : Int))
  | '+' :: cs => if cs = [] then none else (parseDigitsAux cs 0).map (fun n => (n : Int))
  | cs => (parseDigitsAux cs 0).map (fun n => (n : Int))

/-- `pbc.ResourceDescriptor`: the canonical resource descriptor
{provider, resourceType, sku, region, tags}. -/
structure ResourceDescriptor where
  provider : String
  resourceType : String
  sku : String
  region : String
  tags : TagMap
deriving Repr, DecidableEq

/-- `ARNComponents`: the parsed ARN-equivalent resource identifier
{partition, service, region, accountID, resourceType, resourceID}. -/
structure ARNComponents where
  partition : String
  service : String
  region : String
  accountID : String
  resourceType : String
  resourceID : String
deriving Repr, DecidableEq

/-- Modelled from the spec: the trailing `resource` segment of an
identifier is either `kind/id` or `kind:id`; a bare token is a kind with
an empty id (`internal/plugin/arn.go` is absent from the source snapshot;
grammar from spec section 4.3 and the ParseARN unit tests). -/
def splitResourceSegment (r : String) : String × String :=
  if r.data.contains '/' then
    match splitStringOnChar '/' r with
    | [] => (r, "")
    | k :: rest => (k, String.intercalate "/" rest)
  else
    match splitStringOnChar ':' r with
    | [] => (r, "")
    | [k] => (k, "")
    | k :: rest => (k, String.intercalate ":" rest)

/-- Modelled from the spec: `ParseARN` parses
`scheme:partition:service:region:account:resource` with at least six
colon-delimited segments; scheme must be `arn`; partitions `aws`,
`aws-cn`, `aws-us-gov` are accepted; the isolated partitions `aws-iso`
and `aws-iso-b` are rejected with the no-public-pricing error; empty
service or empty resource is a parse error; region and account may be
empty (`internal/plugin/arn.go` is absent from the source snapshot). -/
def parseARNParts (parts : List String) : Except String ARNComponents :=
  match parts with
  | scheme :: partition :: service :: region :: account :: res :: rest =>
    if scheme ≠ "arn" then
      .error "invalid ARN format: must start with arn:"
    else if partition = "aws-iso" ∨ partition = "aws-iso-b" then
      .error "isolated partitions (aws-iso, aws-iso-b) do not have public pricing data"
    else if ¬ (partition = "aws" ∨ partition = "aws-cn" ∨ partition = "aws-us-gov") then
      .error ("invalid ARN partition: " ++ partition)
    else if service = "" then
      .error "invalid ARN: empty service"
    else if String.intercalate ":" (res :: rest) = "" then
      .error "invalid ARN: empty resource"
    else
      .ok ⟨partition, service, region, account,
        (splitResourceSegment (String.intercalate ":" (res :: rest))).1,
        (splitResourceSegment (String.intercalate ":" (res :: rest))).2⟩
  | _ => .error "invalid ARN format: expected at least 6 segments"

/-- Modelled from the spec: `ParseARN` applied to the colon-split
identifier string. -/
def ParseARN (arn : String) : Except String ARNComponents :=
  parseARNParts (splitStringOnChar ':' arn)

/-- Modelled from the spec: service-to-canonical-resource-type mapping is
a fixed table in which every supported service maps to its own token; the
one documented exception maps the `volume` kind under the compute service
to the block-storage type; unknown services pass through unchanged
(`ToPulumiResourceType` in `internal/plugin/arn.go`, absent from the
source snapshot). -/
def ARNComponents.toPulumiResourceType (a : ARNComponents) : String :=
  if a.service = "ec2" ∧ a.resourceType = "volume" then "ebs"
  else a.service

/-- Modelled from the spec: `extractAWSSKU` pulls the instance-class /
volume-class SKU from the alternate tag keys that
`parseResourceFromARN` later strips (`instanceType`, `instance_class`,
`type`, `volumeType`, `volume_type`); the first non-empty value wins and
absence yields `""` (the helper is absent from the source snapshot). -/
def extractAWSSKU (tags : TagMap) : String :=
  (["instanceType", "instance_class", "type", "volumeType", "volume_type"].findSome?
    (fun k => let v := TagMap.get tags k; if v = "" then none else some v)).getD ""

/-- The ResourceId string field of a GetActualCost request, classified by
how `json.Unmarshal` treats it: `empty` is the `""` string, `json d` is a
string that is valid JSON decoding to descriptor `d` (for example `"{}"`
decodes to the all-empty descriptor), and `nonJSON s` is a non-empty
string that fails to decode. -/
inductive ResourceIdField where
  | empty
  | json (d : ResourceDescriptor)
  | nonJSON (s : String)
deriving Repr, DecidableEq

/-- `pbc.GetActualCostRequest`: ARN string, ResourceId field, optional
tag map, and optional start/end instants (in hours, see module header). -/
structure GetActualCostRequest where
  arn : String
  resourceId : ResourceIdField
  tags : Option TagMap
  startTime : Option ℚ
  endTime : Option ℚ
deriving Repr, DecidableEq

/-- The SKU extraction step of `parseResourceFromARN`: `tags["sku"]`
first, then `extractAWSSKU`, and `""` when the tag map is nil. -/
def skuFromTags (tags : Option TagMap) : String :=
  match tags with
  | none => ""
  | some t =>
    let s := TagMap.get t "sku"
    if s = "" then extractAWSSKU t else s

/-- `parseResourceFromARN`: ARN supplies provider, region and resource
type; the SKU must come from the tags; the SKU-bearing tag keys are
stripped from the copied tag map. -/
def parseResourceFromARN (req : GetActualCostRequest) : Except String ResourceDescriptor :=
  match ParseARN req.arn with
  | .error e => .error e
  | .ok a =>
    let sku := skuFromTags req.tags
    if sku = "" then
      .error "ARN provided but tags missing 'sku' (instance type, volume type, etc.)"
    else
      let tags := (req.tags.getD []).filter (fun kv =>
        !(kv.1 == "sku" || kv.1 == "instanceType" || kv.1 == "instance_class" ||
          kv.1 == "type" || kv.1 == "volumeType" || kv.1 == "volume_type"))
      .ok ⟨"aws", a.toPulumiResourceType, sku, a.region, tags⟩

/-- `parseResourceFromRequest`: try ResourceId as a JSON-encoded
descriptor (returned verbatim on success), otherwise fall back to the
flat tag map, stripping the four identifying keys and requiring all four
extracted fields to be non-empty. -/
def parseResourceFromRequest (req : GetActualCostRequest) : Except String ResourceDescriptor :=
  match req.resourceId with
  | .json d => .ok d
  | _ =>
    match req.tags with
    | none => .error "missing resource information: provide ResourceId as JSON or use Tags"
    | some tags =>
      let r : ResourceDescriptor :=
        { provider := TagMap.get tags "provider"
          resourceType := TagMap.get tags "resource_type"
          sku := TagMap.get tags "sku"
          region := TagMap.get tags "region"
          tags := tags.filter (fun kv =>
            !(kv.1 == "provider" || kv.1 == "resource_type" ||
              kv.1 == "sku" || kv.1 == "region")) }
      if r.provider = "" ∨ r.resourceType = "" ∨ r.sku = "" ∨ r.region = "" then
        .error "resource information incomplete: need provider, resource_type, sku, region in ResourceId or Tags"
      else
        .ok r

/-- `validateTimestamps`: start and end are required and end must be
strictly after start (`!end.After(start)` rejects equality too). -/
def validateTimestamps (req : GetActualCostRequest) : Except String Unit :=
  match req.startTime with
  | none => .error "start_time is required"
  | some s =>
    match req.endTime with
    | none => .error "end_time is required"
    | some e =>
      if ¬ (s < e) then .error "end_time must be after start_time"
      else .ok ()

/-- Modelled from the spec: the SDK-side request validation applied on
the non-ARN path requires a ResourceId to be present
(`pluginsdk.ValidateActualCostRequest` lives in the external SDK). -/
def sdkValidateActualCostRequest (req : GetActualCostRequest) : Except String Unit :=
  if req.resourceId = ResourceIdField.empty then .error "resource_id is required"
  else .ok ()

/-- The plugin state: the embedded region together with the region-scoped
pricing client, whose typed getters return `(rate, found)`, here
`Option ℚ`. -/
structure AWSPublicPlugin where
  region : String
  ec2Price : String → String → String → Option ℚ
  ebsPrice : String → Option ℚ

/-- `ValidateActualCostRequest`: timestamp validation, then the fallback
chain — ARN first (with region defaulting for global services), then SDK
validation plus JSON-ResourceId / tag-map extraction with an exact region
match. -/
def ValidateActualCostRequest (p : AWSPublicPlugin) (req : GetActualCostRequest) :
    Except String ResourceDescriptor :=
  match validateTimestamps req with
  | .error e => .error e
  | .ok _ =>
    if req.arn ≠ "" then
      match parseResourceFromARN req with
      | .error e => .error e
      | .ok r =>
        if r.region ≠ "" ∧ r.region ≠ p.region then .error "region mismatch"
        else if r.region = "" then .ok { r with region := p.region }
        else .ok r
    else
      match sdkValidateActualCostRequest req with
      | .error e => .error e
      | .ok _ =>
        match parseResourceFromRequest req with
        | .error e => .error e
        | .ok r =>
          if r.region ≠ p.region then .error "region mismatch"
          else .ok r

/-- `hoursPerMonth`: the fixed monthly-hours constant 730. -/
def hoursPerMonth : ℚ := 730

/-- Modelled from the spec: `calculateRuntimeHours` converts the window
into fractional hours; a negative duration (end before start) is
rejected with an error, zero duration returns 0.0, and a positive
duration returns the elapsed fractional hours
(`internal/plugin/actual.go` is absent from the source snapshot). -/
def calculateRuntimeHours (fromTime toTime : ℚ) : Except String ℚ :=
  if toTime < fromTime then .error "end time is before start time"
  else .ok (toTime - fromTime)

/-- The projected (steady-state monthly) cost response consumed by the
actual-cost formula: monthly cost plus the explanatory billing detail. -/
structure ProjectedCostResponse where
  costPerMonth : ℚ
  billingDetail : String
deriving Repr, DecidableEq

/-- `pbc.ActualCostResult`: one windowed cost result. -/
structure ActualCostResult where
  timestamp : ℚ
  cost : ℚ
  usageAmount : ℚ
  usageUnit : String
  source : String
deriving Repr, DecidableEq

/-- Modelled from the spec: `formatActualBillingDetail` renders the
fallback-estimate explanation from the projected billing detail (the
helper is absent from the source snapshot; only the detail string passes
through, no cost value is recomputed here). -/
def formatActualBillingDetail (billingDetail : String) : String :=
  "Fallback estimate: " ++ billingDetail

/-- `GetActualCost`: validate timestamps, compute runtime hours, resolve
the resource, return $0 for a zero-duration window, otherwise pro-rate
the projected monthly cost by `runtimeHours / 730`. The projected-cost
computation is passed in explicitly (it is `getProjectedForResource` in
the source). -/
def GetActualCost (projected : ResourceDescriptor → Except String ProjectedCostResponse)
    (req : Option GetActualCostRequest) : Except String (List ActualCostResult) :=
  match req with
  | none => .error "missing request"
  | some req =>
    match req.startTime with
    | none => .error "missing Start timestamp"
    | some fromTime =>
      match req.endTime with
      | none => .error "missing End timestamp"
      | some toTime =>
        match calculateRuntimeHours fromTime toTime with
        | .error e => .error ("invalid time range: " ++ e)
        | .ok runtimeHours =>
          match parseResourceFromRequest req with
          | .error e => .error e
          | .ok resource =>
            if runtimeHours = 0 then
              .ok [⟨fromTime, 0, 0, "", "aws-public-fallback"⟩]
            else
              match projected resource with
              | .error e => .error e
              | .ok resp =>
                let actualCost := resp.costPerMonth * (runtimeHours / hoursPerMonth)
                .ok [⟨fromTime, actualCost, runtimeHours, "hours",
                  formatActualBillingDetail resp.billingDetail⟩]

/-- `confidenceHigh`: generation upgrades and EBS changes. -/
def confidenceHigh : ℚ := 9/10

/-- `confidenceMedium`: Graviton recommendations. -/
def confidenceMedium : ℚ := 7/10

/-- `defaultEBSVolumeGB`: default volume size when not given in tags. -/
def defaultEBSVolumeGB : Nat := 100

/-- The impact block of a recommendation: absolute savings, current and
projected monthly cost, savings percentage. -/
structure RecommendationImpact where
  estimatedSavings : ℚ
  currency : String
  projectionPeriod : String
  currentCost : ℚ
  projectedCost : ℚ
  savingsPercentage : ℚ
deriving Repr, DecidableEq

/-- A recommendation (the fields the heuristics populate; host-protocol
envelope fields such as the random id are omitted). -/
structure Recommendation where
  modificationType : String
  region : String
  sku : String
  currentConfig : TagMap
  recommendedConfig : TagMap
  impact : RecommendationImpact
  confidenceScore : ℚ
  metadata : TagMap
  source : String
deriving Repr, DecidableEq

/-- `generationUpgradeMap`: fixed mapping from older EC2 instance
families to their newer-generation equivalents (table reproduced in
`specs/012-recommendations/data-model.md`). -/
def generationUpgradeMap : TagMap :=
  [("t2", "t3"), ("t3", "t3a"),
   ("m4", "m5"), ("m5", "m6i"), ("m5a", "m6a"),
   ("c4", "c5"), ("c5", "c6i"), ("c5a", "c6a"),
   ("r4", "r5"), ("r5", "r6i"), ("r5a", "r6a"),
   ("i3", "i3en"), ("d2", "d3")]

/-- `gravitonMap`: fixed mapping from x86 instance families to Graviton
(ARM) equivalents (table reproduced in
`specs/012-recommendations/data-model.md`). -/
def gravitonMap : TagMap :=
  [("m5", "m6g"), ("m5a", "m6g"), ("m5n", "m6g"), ("m6i", "m6g"), ("m6a", "m6g"),
   ("c5", "c6g"), ("c5a", "c6g"), ("c5n", "c6gn"), ("c6i", "c6g"), ("c6a", "c6g"),
   ("r5", "r6g"), ("r5a", "r6g"), ("r5n", "r6g"), ("r6i", "r6g"), ("r6a", "r6g"),
   ("t3", "t4g"), ("t3a", "t4g")]

/-- Modelled from the spec: `parseInstanceType` splits an instance type
`family.size` at the first dot; a token without a dot yields an empty
family, which the heuristics treat as "no candidate" (the helper is
absent from the source snapshot). -/
def parseInstanceType (instanceType : String) : String × String :=
  match splitStringOnChar '.' instanceType with
  | [] => ("", "")
  | [_] => ("", "")
  | family :: rest => (family, String.intercalate "." rest)

/-- `getGenerationUpgradeRecommendation`: recommend the newer-generation
family only when the new rate is found and not above the current rate;
savings percentage guards a zero base. -/
def getGenerationUpgradeRecommendation (p : AWSPublicPlugin)
    (instanceType region : String) : Option Recommendation :=
  let fs := parseInstanceType instanceType
  if fs.1 = "" then none
  else
    match generationUpgradeMap.lookup fs.1 with
    | none => none
    | some newFamily =>
      let newType := newFamily ++ "." ++ fs.2
      match p.ec2Price instanceType "Linux" "Shared" with
      | none => none
      | some currentPrice =>
        match p.ec2Price newType "Linux" "Shared" with
        | none => none
        | some newPrice =>
          if newPrice > currentPrice then none
          else
            let currentMonthly := currentPrice * hoursPerMonth
            let newMonthly := newPrice * hoursPerMonth
            let savings := currentMonthly - newMonthly
            let savingsPercent := if currentMonthly > 0 then savings / currentMonthly * 100 else 0
            some
              { modificationType := "generation_upgrade"
                region := region
                sku := instanceType
                currentConfig := [("instance_type", instanceType)]
                recommendedConfig := [("instance_type", newType)]
                impact :=
                  { estimatedSavings := savings
                    currency := "USD"
                    projectionPeriod := "monthly"
                    currentCost := currentMonthly
                    projectedCost := newMonthly
                    savingsPercentage := savingsPercent }
                confidenceScore := confidenceHigh
                metadata := []
                source := "aws-public" }

/-- `getGravitonRecommendation`: recommend the Graviton family only when
the Graviton rate is found and not above the current rate; carries the
architecture-validation metadata. -/
def getGravitonRecommendation (p : AWSPublicPlugin)
    (instanceType region : String) : Option Recommendation :=
  let fs := parseInstanceType instanceType
  if fs.1 = "" then none
  else
    match gravitonMap.lookup fs.1 with
    | none => none
    | some gravitonFamily =>
      let gravitonType := gravitonFamily ++ "." ++ fs.2
      match p.ec2Price instanceType "Linux" "Shared" with
      | none => none
      | some currentPrice =>
        match p.ec2Price gravitonType "Linux" "Shared" with
        | none => none
        | some gravitonPrice =>
          if gravitonPrice > currentPrice then none
          else
            let currentMonthly := currentPrice * hoursPerMonth
            let gravitonMonthly := gravitonPrice * hoursPerMonth
            let savings := currentMonthly - gravitonMonthly
            let savingsPercent := if currentMonthly > 0 then savings / currentMonthly * 100 else 0
            some
              { modificationType := "graviton_migration"
                region := region
                sku := instanceType
                currentConfig := [("instance_type", instanceType), ("architecture", "x86_64")]
                recommendedConfig := [("instance_type", gravitonType), ("architecture", "arm64")]
                impact :=
                  { estimatedSavings := savings
                    currency := "USD"
                    projectionPeriod := "monthly"
                    currentCost := currentMonthly
                    projectedCost := gravitonMonthly
                    savingsPercentage := savingsPercent }
                confidenceScore := confidenceMedium
                metadata := [("architecture_change", "x86_64 -> arm64"),
                             ("requires_validation", "Application must support ARM architecture")]
                source := "aws-public" }

/-- The size extraction of `getEBSRecommendations`: `tags["size"]` if the
key is present (falling back to the default on a non-positive or
unparseable value), else `tags["volume_size"]` the same way, else the
default 100 GB. -/
def ebsSizeFromTags (tags : TagMap) : Nat :=
  if tags.hasKey "size" then
    match atoi (TagMap.get tags "size") with
    | some n => if 0 < n then n.toNat else defaultEBSVolumeGB
    | none => defaultEBSVolumeGB
  else if tags.hasKey "volume_size" then
    match atoi (TagMap.get tags "volume_size") with
    | some n => if 0 < n then n.toNat else defaultEBSVolumeGB
    | none => defaultEBSVolumeGB
  else defaultEBSVolumeGB

/-- `getEBSRecommendations`: gp2-to-gp3 upgrade, emitted only when both
rates are found and the gp3 rate is not above the gp2 rate. -/
def getEBSRecommendations (p : AWSPublicPlugin)
    (volumeType region : String) (tags : TagMap) : List Recommendation :=
  if volumeType ≠ "gp2" then []
  else
    let sizeGB := ebsSizeFromTags tags
    match p.ebsPrice "gp2" with
    | none => []
    | some gp2Price =>
      match p.ebsPrice "gp3" with
      | none => []
      | some gp3Price =>
        if gp3Price > gp2Price then []
        else
          let currentMonthly := gp2Price * (sizeGB : ℚ)
          let gp3Monthly := gp3Price * (sizeGB : ℚ)
          let savings := currentMonthly - gp3Monthly
          let savingsPercent := if currentMonthly > 0 then savings / currentMonthly * 100 else 0
          [{ modificationType := "volume_type_upgrade"
             region := region
             sku := volumeType
             currentConfig := [("volume_type", "gp2"), ("size_gb", toString sizeGB)]
             recommendedConfig := [("volume_type", "gp3"), ("size_gb", toString sizeGB)]
             impact :=
               { estimatedSavings := savings
                 currency := "USD"
                 projectionPeriod := "monthly"
                 currentCost := currentMonthly
                 projectedCost := gp3Monthly
                 savingsPercentage := savingsPercent }
             confidenceScore := confidenceHigh
             metadata := [("baseline_iops", "gp2: 100 IOPS/GB, gp3: 3000 IOPS (included)"),
                          ("baseline_throughput", "gp2: 128-250 MB/s, gp3: 125 MB/s (included)")]
             source := "aws-public" }]

/-- `generateEC2Recommendations`: up to two recommendations, generation
upgrade and Graviton migration. -/
def generateEC2Recommendations (p : AWSPublicPlugin)
    (instanceType region : String) : List Recommendation :=
  (getGenerationUpgradeRecommendation p instanceType region).toList ++
    (getGravitonRecommendation p instanceType region).toList

/-- Modelled from the spec: `detectService` normalizes a caller-supplied
resource-type token to the service family it belongs to; the plain
service tokens pass through and Pulumi-style type tokens map to their
service (the helper is absent from the source snapshot). -/
def detectService (resourceType : String) : String :=
  if resourceType = "ec2" ∨ resourceType = "aws:ec2/instance:Instance" then "ec2"
  else if resourceType = "ebs" ∨ resourceType = "aws:ebs/volume:Volume" then "ebs"
  else resourceType

/-- `pbc.RecommendationFilter`: the sku/resource-type/region/tags filter
of a recommendations request. -/
structure RecommendationFilter where
  sku : String
  resourceType : String
  region : String
  tags : TagMap
deriving Repr, DecidableEq

/-- `pbc.GetRecommendationsRequest`: an optional filter. -/
structure GetRecommendationsRequest where
  filter : Option RecommendationFilter
deriving Repr, DecidableEq

/-- Modelled from the spec: the aggregate total-savings summary computed
by the SDK from the recommendation list
(`pluginsdk.CalculateRecommendationSummary` lives in the external SDK). -/
structure RecommendationSummary where
  totalSavings : ℚ
  recommendationCount : Nat
  projectionPeriod : String
deriving Repr, DecidableEq

/-- Modelled from the spec: the summary sums the estimated savings over
the returned recommendations. -/
def CalculateRecommendationSummary (recs : List Recommendation) : RecommendationSummary :=
  ⟨(recs.map (fun r => r.impact.estimatedSavings)).sum, recs.length, "monthly"⟩

/-- `pbc.GetRecommendationsResponse`: recommendation list plus summary. -/
structure GetRecommendationsResponse where
  recommendations : List Recommendation
  summary : RecommendationSummary
deriving Repr, DecidableEq

/-- `GetRecommendations`: nil request is an input error; with no filter
or an empty filter sku the recommendation list stays empty; otherwise the
filter's resource type routes to the EC2 or EBS heuristics, with an empty
filter region defaulting to the plugin region. -/
def GetRecommendations (p : AWSPublicPlugin) (req : Option GetRecommendationsRequest) :
    Except String GetRecommendationsResponse :=
  match req with
  | none => .error "missing request"
  | some req =>
    let recommendations : List Recommendation :=
      match req.filter with
      | none => []
      | some filter =>
        if filter.sku = "" then []
        else
          let region := if filter.region = "" then p.region else filter.region
          let service := detectService filter.resourceType
          if service = "ec2" then generateEC2Recommendations p filter.sku region
          else if service = "ebs" then getEBSRecommendations p filter.sku region filter.tags
          else []
    .ok ⟨recommendations, CalculateRecommendationSummary recommendations⟩

/-- A concrete plugin instance with the us-east-1 catalog rates used in
the repository's pricing tests (t2.micro $0.0116/h, t3.micro $0.0104/h,
gp2 $0.10/GB-month, gp3 $0.08/GB-month). -/
def demoPlugin : AWSPublicPlugin where
  region := "us-east-1"
  ec2Price := fun t os tenancy =>
    if os = "Linux" ∧ tenancy = "Shared" then
      if t = "t2.micro" then some (116/10000)
      else if t = "t3.micro" then some (104/10000)
      else none
    else none
  ebsPrice := fun v =>
    if v = "gp2" then some (1/10)
    else if v = "gp3" then some (8/100)
    else none

/-- The generation-upgrade recommendation the demo plugin emits for a
t2.micro instance ($8.468/month down to $7.592/month). -/
def demoGenUpgradeRec : Recommendation where
  modificationType := "generation_upgrade"
  region := "us-east-1"
  sku := "t2.micro"
  currentConfig := [("instance_type", "t2.micro")]
  recommendedConfig := [("instance_type", "t3.micro")]
  impact :=
    { estimatedSavings := 219/250
      currency := "USD"
      projectionPeriod := "monthly"
      currentCost := 2117/250
      projectedCost := 949/125
      savingsPercentage := 300/29 }
  confidenceScore := confidenceHigh
  metadata := []
  source := "aws-public"

/-!
## Claim theorems
-/

/-- C1: for every actual-cost request whose end instant is strictly after
its start instant and whose resource resolves to a descriptor whose
projected cost is computable, the returned cost equals the projected
monthly cost multiplied by (elapsed hours / 730). -/
theorem getActualCost_positive_window_prorates
    (projected : ResourceDescriptor → Except String ProjectedCostResponse)
    (req : GetActualCostRequest) (fromTime toTime : ℚ)
    (resource : ResourceDescriptor) (resp : ProjectedCostResponse)
    (hstart : req.startTime = some fromTime) (hend : req.endTime = some toTime)
    (hlt : fromTime < toTime)
    (hres : parseResourceFromRequest req = .ok resource)
    (hproj : projected resource = .ok resp) :
    GetActualCost projected (some req) =
      .ok [⟨fromTime, resp.costPerMonth * ((toTime - fromTime) / hoursPerMonth),
            toTime - fromTime, "hours", formatActualBillingDetail resp.billingDetail⟩] := by
  have hnotlt : ¬ toTime < fromTime := not_lt.mpr hlt.le
  have hne : ¬ toTime - fromTime = 0 := sub_ne_zero.mpr (ne_of_gt hlt)
  simp only [GetActualCost, hstart, hend, calculateRuntimeHours, if_neg hnotlt, hres, hproj,
    if_neg hne]

/-- C1 witness: a 24-hour window on a resource projected at $730/month
yields exactly $24. -/
theorem getActualCost_positive_window_prorates_witness :
    GetActualCost (fun _ => .ok ⟨730, "demo"⟩)
        (some ⟨"", ResourceIdField.json ⟨"aws", "ec2", "t3.micro", "us-east-1", []⟩,
          none, some 0, some 24⟩) =
      .ok [⟨0, (730 : ℚ) * ((24 - 0) / hoursPerMonth), 24 - 0, "hours",
            formatActualBillingDetail "demo"⟩] :=
  getActualCost_positive_window_prorates (fun _ => .ok ⟨730, "demo"⟩)
    ⟨"", ResourceIdField.json ⟨"aws", "ec2", "t3.micro", "us-east-1", []⟩, none, some 0, some 24⟩
    0 24 ⟨"aws", "ec2", "t3.micro", "us-east-1", []⟩ ⟨730, "demo"⟩
    rfl rfl (by norm_num) rfl rfl

/-- C2: for every actual-cost request whose end instant equals its start
instant and whose resource resolves, the call succeeds with a single
result of cost exactly 0 — it is not rejected as an input error. -/
theorem getActualCost_zero_duration_returns_zero
    (projected : ResourceDescriptor → Except String ProjectedCostResponse)
    (req : GetActualCostRequest) (t : ℚ) (resource : ResourceDescriptor)
    (hstart : req.startTime = some t) (hend : req.endTime = some t)
    (hres : parseResourceFromRequest req = .ok resource) :
    GetActualCost projected (some req) = .ok [⟨t, 0, 0, "", "aws-public-fallback"⟩] := by
  simp only [GetActualCost, hstart, hend, calculateRuntimeHours, if_neg (lt_irrefl t), hres,
    sub_self, if_pos rfl, if_true]

/-- C2 witness: a zero-length window at instant 5 succeeds with cost 0. -/
theorem getActualCost_zero_duration_returns_zero_witness :
    GetActualCost (fun _ => .ok ⟨730, "demo"⟩)
        (some ⟨"", ResourceIdField.json ⟨"aws", "ec2", "t3.micro", "us-east-1", []⟩,
          none, some 5, some 5⟩) =
      .ok [⟨5, 0, 0, "", "aws-public-fallback"⟩] :=
  getActualCost_zero_duration_returns_zero (fun _ => .ok ⟨730, "demo"⟩)
    ⟨"", ResourceIdField.json ⟨"aws", "ec2", "t3.micro", "us-east-1", []⟩, none, some 5, some 5⟩
    5 ⟨"aws", "ec2", "t3.micro", "us-east-1", []⟩ rfl rfl rfl

/-- Shape of an emitted generation-upgrade recommendation: both rates
were found, the new rate does not exceed the current one, and the impact
block is the 730-hour scaling with the zero-base-guarded percentage. -/
theorem genUpgrade_emitted_shape (p : AWSPublicPlugin) (instanceType region : String)
    (rec : Recommendation)
    (h : getGenerationUpgradeRecommendation p instanceType region = some rec) :
    ∃ currentPrice newPrice : ℚ,
      p.ec2Price instanceType "Linux" "Shared" = some currentPrice ∧
      p.ec2Price (TagMap.get rec.recommendedConfig "instance_type") "Linux" "Shared" =
        some newPrice ∧
      newPrice ≤ currentPrice ∧
      rec.impact.currentCost = currentPrice * hoursPerMonth ∧
      rec.impact.projectedCost = newPrice * hoursPerMonth ∧
      rec.impact.estimatedSavings = rec.impact.currentCost - rec.impact.projectedCost ∧
      rec.impact.savingsPercentage =
        (if 0 < rec.impact.currentCost then
          rec.impact.estimatedSavings / rec.impact.currentCost * 100 else 0) := by
  simp only [getGenerationUpgradeRecommendation] at h
  by_cases hf : (parseInstanceType instanceType).1 = ""
  · rw [if_pos hf] at h; exact absurd h (by simp)
  rw [if_neg hf] at h
  cases hlk : generationUpgradeMap.lookup (parseInstanceType instanceType).1 with
  | none => rw [hlk] at h; exact absurd h (by simp)
  | some newFamily =>
    rw [hlk] at h
    dsimp only at h
    cases hcur : p.ec2Price instanceType "Linux" "Shared" with
    | none => rw [hcur] at h; exact absurd h (by simp)
    | some currentPrice =>
      rw [hcur] at h
      dsimp only at h
      cases hnew : p.ec2Price (newFamily ++ "." ++ (parseInstanceType instanceType).2)
          "Linux" "Shared" with
      | none => rw [hnew] at h; exact absurd h (by simp)
      | some newPrice =>
        rw [hnew] at h
        dsimp only at h
        by_cases hgt : newPrice > currentPrice
        · rw [if_pos hgt] at h; exact absurd h (by simp)
        · rw [if_neg hgt] at h
          simp only [Option.some.injEq] at h
          subst h
          refine ⟨currentPrice, newPrice, rfl, ?_, not_lt.mp hgt, rfl, rfl, rfl, rfl⟩
          simpa [TagMap.get] using hnew

/-- Shape of an emitted Graviton recommendation: both rates were found,
the Graviton rate does not exceed the current one, and the impact block
is the 730-hour scaling with the zero-base-guarded percentage. -/
theorem graviton_emitted_shape (p : AWSPublicPlugin) (instanceType region : String)
    (rec : Recommendation)
    (h : getGravitonRecommendation p instanceType region = some rec) :
    ∃ currentPrice gravitonPrice : ℚ,
      p.ec2Price instanceType "Linux" "Shared" = some currentPrice ∧
      p.ec2Price (TagMap.get rec.recommendedConfig "instance_type") "Linux" "Shared" =
        some gravitonPrice ∧
      gravitonPrice ≤ currentPrice ∧
      rec.impact.currentCost = currentPrice * hoursPerMonth ∧
      rec.impact.projectedCost = gravitonPrice * hoursPerMonth ∧
      rec.impact.estimatedSavings = rec.impact.currentCost - rec.impact.projectedCost ∧
      rec.impact.savingsPercentage =
        (if 0 < rec.impact.currentCost then
          rec.impact.estimatedSavings / rec.impact.currentCost * 100 else 0) := by
  simp only [getGravitonRecommendation] at h
  by_cases hf : (parseInstanceType instanceType).1 = ""
  · rw [if_pos hf] at h; exact absurd h (by simp)
  rw [if_neg hf] at h
  cases hlk : gravitonMap.lookup (parseInstanceType instanceType).1 with
  | none => rw [hlk] at h; exact absurd h (by simp)
  | some gravitonFamily =>
    rw [hlk] at h
    dsimp only at h
    cases hcur : p.ec2Price instanceType "Linux" "Shared" with
    | none => rw [hcur] at h; exact absurd h (by simp)
    | some currentPrice =>
      rw [hcur] at h
      dsimp only at h
      cases hnew : p.ec2Price (gravitonFamily ++ "." ++ (parseInstanceType instanceType).2)
          "Linux" "Shared" with
      | none => rw [hnew] at h; exact absurd h (by simp)
      | some gravitonPrice =>
        rw [hnew] at h
        dsimp only at h
        by_cases hgt : gravitonPrice > currentPrice
        · rw [if_pos hgt] at h; exact absurd h (by simp)
        · rw [if_neg hgt] at h
          simp only [Option.some.injEq] at h
          subst h
          refine ⟨currentPrice, gravitonPrice, rfl, ?_, not_lt.mp hgt, rfl, rfl, rfl, rfl⟩
          simpa [TagMap.get] using hnew

/-- Shape of an emitted gp2-to-gp3 recommendation: both volume rates were
found, the gp3 rate does not exceed the gp2 rate, and the impact block is
the per-GB scaling with the zero-base-guarded percentage. -/
theorem ebs_emitted_shape (p : AWSPublicPlugin) (volumeType region : String)
    (tags : TagMap) (rec : Recommendation)
    (h : rec ∈ getEBSRecommendations p volumeType region tags) :
    ∃ gp2Price gp3Price : ℚ,
      p.ebsPrice "gp2" = some gp2Price ∧
      p.ebsPrice (TagMap.get rec.recommendedConfig "volume_type") = some gp3Price ∧
      gp3Price ≤ gp2Price ∧
      rec.impact.currentCost = gp2Price * (ebsSizeFromTags tags : ℚ) ∧
      rec.impact.projectedCost = gp3Price * (ebsSizeFromTags tags : ℚ) ∧
      rec.impact.estimatedSavings = rec.impact.currentCost - rec.impact.projectedCost ∧
      rec.impact.savingsPercentage =
        (if 0 < rec.impact.currentCost then
          rec.impact.estimatedSavings / rec.impact.currentCost * 100 else 0) := by
  simp only [getEBSRecommendations] at h
  by_cases hv : volumeType ≠ "gp2"
  · rw [if_pos hv] at h; exact absurd h (by simp)
  rw [if_neg hv] at h
  cases h2 : p.ebsPrice "gp2" with
  | none => rw [h2] at h; exact absurd h (by simp)
  | some gp2Price =>
    rw [h2] at h
    dsimp only at h
    cases h3 : p.ebsPrice "gp3" with
    | none => rw [h3] at h; exact absurd h (by simp)
    | some gp3Price =>
      rw [h3] at h
      dsimp only at h
      by_cases hgt : gp3Price > gp2Price
      · rw [if_pos hgt] at h; exact absurd h (by simp)
      · rw [if_neg hgt] at h
        simp only [List.mem_singleton] at h
        subst h
        refine ⟨gp2Price, gp3Price, rfl, ?_, not_lt.mp hgt, rfl, rfl, rfl, rfl⟩
        simpa [TagMap.get] using h3

/-- C3: each of the three heuristics (generation upgrade, Graviton
migration, gp2-to-gp3 upgrade) emits a recommendation only when the
recommended configuration's rate is found and is at most the current
configuration's rate; a strictly more expensive alternative is never
suggested. -/
theorem recommendations_never_more_expensive (p : AWSPublicPlugin)
    (instanceType volumeType region : String) (tags : TagMap) :
    (∀ rec, getGenerationUpgradeRecommendation p instanceType region = some rec →
      ∃ currentRate newRate : ℚ,
        p.ec2Price instanceType "Linux" "Shared" = some currentRate ∧
        p.ec2Price (TagMap.get rec.recommendedConfig "instance_type") "Linux" "Shared" =
          some newRate ∧
        newRate ≤ currentRate) ∧
    (∀ rec, getGravitonRecommendation p instanceType region = some rec →
      ∃ currentRate newRate : ℚ,
        p.ec2Price instanceType "Linux" "Shared" = some currentRate ∧
        p.ec2Price (TagMap.get rec.recommendedConfig "instance_type") "Linux" "Shared" =
          some newRate ∧
        newRate ≤ currentRate) ∧
    (∀ rec, rec ∈ getEBSRecommendations p volumeType region tags →
      ∃ currentRate newRate : ℚ,
        p.ebsPrice volumeType = some currentRate ∧
        p.ebsPrice (TagMap.get rec.recommendedConfig "volume_type") = some newRate ∧
        newRate ≤ currentRate) := by
  refine ⟨?_, ?_, ?_⟩
  · intro rec h
    obtain ⟨c, n, hc, hn, hle, -⟩ := genUpgrade_emitted_shape p instanceType region rec h
    exact ⟨c, n, hc, hn, hle⟩
  · intro rec h
    obtain ⟨c, n, hc, hn, hle, -⟩ := graviton_emitted_shape p instanceType region rec h
    exact ⟨c, n, hc, hn, hle⟩
  · intro rec h
    have hv : volumeType = "gp2" := by
      by_contra hne
      simp only [getEBSRecommendations, if_pos hne] at h
      exact absurd h (by simp)
    obtain ⟨c, n, hc, hn, hle, -⟩ := ebs_emitted_shape p volumeType region tags rec h
    exact ⟨c, n, hv ▸ hc, hn, hle⟩

/-- The demo plugin emits exactly `demoGenUpgradeRec` for t2.micro. -/
theorem demoGenUpgradeRec_spec :
    getGenerationUpgradeRecommendation demoPlugin "t2.micro" "us-east-1" =
      some demoGenUpgradeRec := by
  have h1 : parseInstanceType "t2.micro" = ("t2", "micro") := rfl
  have h2 : generationUpgradeMap.lookup "t2" = some "t3" := rfl
  have h3 : demoPlugin.ec2Price "t2.micro" "Linux" "Shared" = some (116/10000) := rfl
  have h4 : demoPlugin.ec2Price ("t3" ++ "." ++ "micro") "Linux" "Shared" =
      some (104/10000) := rfl
  simp only [getGenerationUpgradeRecommendation, h1, h2, h3, h4]
  norm_num [demoGenUpgradeRec, hoursPerMonth, gravitonMap, TagMap.lookup]
  exact ⟨by decide, by decide⟩

/-- C3 witness: the demo plugin's t2-to-t3 upgrade is emitted, the t3
rate is found, and it does not exceed the t2 rate. -/
theorem recommendations_never_more_expensive_witness :
    ∃ currentRate newRate : ℚ,
      demoPlugin.ec2Price "t2.micro" "Linux" "Shared" = some currentRate ∧
      demoPlugin.ec2Price (TagMap.get demoGenUpgradeRec.recommendedConfig "instance_type")
        "Linux" "Shared" = some newRate ∧
      newRate ≤ currentRate :=
  (recommendations_never_more_expensive demoPlugin "t2.micro" "gp2" "us-east-1" []).1
    demoGenUpgradeRec demoGenUpgradeRec_spec

/-- C8: in every emitted recommendation, the savings percentage equals
(savings / current monthly cost) × 100 when the current monthly cost is
strictly positive and is exactly 0 when the current monthly cost is 0 —
the zero base is never divided by. -/
theorem savings_percentage_guards_zero_base (p : AWSPublicPlugin)
    (instanceType volumeType region : String) (tags : TagMap) :
    (∀ rec, getGenerationUpgradeRecommendation p instanceType region = some rec →
      (0 < rec.impact.currentCost →
        rec.impact.savingsPercentage =
          rec.impact.estimatedSavings / rec.impact.currentCost * 100) ∧
      (rec.impact.currentCost = 0 → rec.impact.savingsPercentage = 0)) ∧
    (∀ rec, getGravitonRecommendation p instanceType region = some rec →
      (0 < rec.impact.currentCost →
        rec.impact.savingsPercentage =
          rec.impact.estimatedSavings / rec.impact.currentCost * 100) ∧
      (rec.impact.currentCost = 0 → rec.impact.savingsPercentage = 0)) ∧
    (∀ rec, rec ∈ getEBSRecommendations p volumeType region tags →
      (0 < rec.impact.currentCost →
        rec.impact.savingsPercentage =
          rec.impact.estimatedSavings / rec.impact.currentCost * 100) ∧
      (rec.impact.currentCost = 0 → rec.impact.savingsPercentage = 0)) := by
  refine ⟨?_, ?_, ?_⟩
  · intro rec h
    obtain ⟨c, n, -, -, -, -, -, -, hpct⟩ := genUpgrade_emitted_shape p instanceType region rec h
    constructor
    · intro hpos; rw [hpct, if_pos hpos]
    · intro hzero; rw [hpct, hzero]; simp
  · intro rec h
    obtain ⟨c, n, -, -, -, -, -, -, hpct⟩ := graviton_emitted_shape p instanceType region rec h
    constructor
    · intro hpos; rw [hpct, if_pos hpos]
    · intro hzero; rw [hpct, hzero]; simp
  · intro rec h
    obtain ⟨c, n, -, -, -, -, -, -, hpct⟩ := ebs_emitted_shape p volumeType region tags rec h
    constructor
    · intro hpos; rw [hpct, if_pos hpos]
    · intro hzero; rw [hpct, hzero]; simp

/-- C8 witness: the demo t2-to-t3 upgrade has a strictly positive current
monthly cost and its savings percentage is the guarded ratio. -/
theorem savings_percentage_guards_zero_base_witness :
    demoGenUpgradeRec.impact.savingsPercentage =
      demoGenUpgradeRec.impact.estimatedSavings / demoGenUpgradeRec.impact.currentCost * 100 :=
  ((savings_percentage_guards_zero_base demoPlugin "t2.micro" "gp2" "us-east-1" []).1
    demoGenUpgradeRec demoGenUpgradeRec_spec).1 (by norm_num [demoGenUpgradeRec])

/-- C7: for every non-nil recommendations request whose filter is absent
or carries an empty sku, the call succeeds and returns an empty
recommendation list with a summary, never an error. -/
theorem getRecommendations_no_filter_returns_empty (p : AWSPublicPlugin)
    (req : GetRecommendationsRequest)
    (h : req.filter = none ∨ ∃ f, req.filter = some f ∧ f.sku = "") :
    GetRecommendations p (some req) = .ok ⟨[], CalculateRecommendationSummary []⟩ := by
  rcases h with h | ⟨f, hf, hsku⟩
  · simp only [GetRecommendations, h]
  · simp only [GetRecommendations, hf, hsku, if_pos rfl, if_true]

/-- C7 witness: a request with no filter yields the empty list and
summary. -/
theorem getRecommendations_no_filter_returns_empty_witness :
    GetRecommendations demoPlugin (some ⟨none⟩) =
      .ok ⟨[], CalculateRecommendationSummary []⟩ :=
  getRecommendations_no_filter_returns_empty demoPlugin ⟨none⟩ (Or.inl rfl)

/-- C5: for every actual-cost request with a structurally valid ARN whose
tags yield no SKU, the call fails with the missing-sku error naming the
`sku` attribute; the identifier string alone never supplies the SKU. -/
theorem arn_without_sku_tag_fails (p : AWSPublicPlugin) (req : GetActualCostRequest)
    (a : ARNComponents)
    (ht : validateTimestamps req = .ok ())
    (harn : req.arn ≠ "")
    (hparse : ParseARN req.arn = .ok a)
    (hsku : skuFromTags req.tags = "") :
    ValidateActualCostRequest p req =
      .error "ARN provided but tags missing 'sku' (instance type, volume type, etc.)" := by
  simp [ValidateActualCostRequest, ht, harn, parseResourceFromARN, hparse, hsku]

/-- C5 witness: a valid EC2 instance ARN with only an `env` tag is
rejected with the missing-sku error. -/
theorem arn_without_sku_tag_fails_witness :
    ValidateActualCostRequest demoPlugin
        ⟨"arn:aws:ec2:us-east-1:123456789012:instance/i-abc", ResourceIdField.empty,
          some [("env", "dev")], some 0, some 1⟩ =
      .error "ARN provided but tags missing 'sku' (instance type, volume type, etc.)" :=
  arn_without_sku_tag_fails demoPlugin
    ⟨"arn:aws:ec2:us-east-1:123456789012:instance/i-abc", ResourceIdField.empty,
      some [("env", "dev")], some 0, some 1⟩
    ⟨"aws", "ec2", "us-east-1", "123456789012", "instance", "i-abc"⟩
    rfl (by decide) rfl (by decide)

/-- C6: for every otherwise-valid actual-cost request whose ARN parses
with an empty region segment, resolution succeeds and the resulting
descriptor's region is the plugin's configured region; the empty region
is never a failure. -/
theorem empty_arn_region_defaults_to_plugin_region (p : AWSPublicPlugin)
    (req : GetActualCostRequest) (a : ARNComponents)
    (ht : validateTimestamps req = .ok ())
    (harn : req.arn ≠ "")
    (hparse : ParseARN req.arn = .ok a)
    (hregion : a.region = "")
    (hsku : skuFromTags req.tags ≠ "") :
    ∃ r, ValidateActualCostRequest p req = .ok r ∧ r.region = p.region := by
  simp [ValidateActualCostRequest, ht, harn, parseResourceFromARN, hparse, hsku, hregion]

/-- C6 witness: a global-service (S3) ARN with empty region resolves with
the plugin region us-east-1. -/
theorem empty_arn_region_defaults_to_plugin_region_witness :
    ∃ r, ValidateActualCostRequest demoPlugin
        ⟨"arn:aws:s3:::my-bucket", ResourceIdField.empty,
          some [("sku", "standard")], some 0, some 1⟩ = .ok r ∧
      r.region = demoPlugin.region :=
  empty_arn_region_defaults_to_plugin_region demoPlugin
    ⟨"arn:aws:s3:::my-bucket", ResourceIdField.empty,
      some [("sku", "standard")], some 0, some 1⟩
    ⟨"aws", "s3", "", "", "my-bucket", ""⟩
    rfl (by decide) rfl (by decide) (by decide)

/-- A successfully parsed ARN never has an empty service segment. -/
theorem parseARNParts_ok_service_ne (parts : List String) (a : ARNComponents)
    (h : parseARNParts parts = .ok a) : a.service ≠ "" := by
  unfold parseARNParts at h
  split at h
  · split_ifs at h with h1 h2 h3 h4 h5 <;>
      first
        | exact Except.noConfusion h
        | (simp only [Except.ok.injEq] at h; subst h; exact h4)
  · exact Except.noConfusion h

/-- A descriptor produced by the ARN path has provider `aws`, a non-empty
resource type, and a non-empty SKU; its tags are the request tags with
the SKU-bearing keys filtered out. -/
theorem parseResourceFromARN_ok_fields (req : GetActualCostRequest)
    (r : ResourceDescriptor) (h : parseResourceFromARN req = .ok r) :
    r.provider = "aws" ∧ r.resourceType ≠ "" ∧ r.sku ≠ "" ∧
      r.tags = (req.tags.getD []).filter (fun kv =>
        !(kv.1 == "sku" || kv.1 == "instanceType" || kv.1 == "instance_class" ||
          kv.1 == "type" || kv.1 == "volumeType" || kv.1 == "volume_type")) := by
  unfold parseResourceFromARN at h
  cases hp : ParseARN req.arn with
  | error e => rw [hp] at h; exact absurd h (by simp)
  | ok a =>
    rw [hp] at h
    dsimp only at h
    by_cases hsku : skuFromTags req.tags = ""
    · rw [if_pos hsku] at h; exact absurd h (by simp)
    · rw [if_neg hsku] at h
      simp only [Except.ok.injEq] at h
      subst h
      refine ⟨rfl, ?_, hsku, rfl⟩
      have hs := parseARNParts_ok_service_ne (splitStringOnChar ':' req.arn) a hp
      show a.toPulumiResourceType ≠ ""
      unfold ARNComponents.toPulumiResourceType
      split_ifs with hx <;> first | decide | exact hs

/-- A descriptor produced by the flat-tag path has all four identifying
fields non-empty; its tags are the request tags with the four identifying
keys filtered out. -/
theorem parseResourceFromRequest_tagPath_fields (req : GetActualCostRequest)
    (r : ResourceDescriptor)
    (hjson : ∀ d, req.resourceId ≠ ResourceIdField.json d)
    (h : parseResourceFromRequest req = .ok r) :
    r.provider ≠ "" ∧ r.resourceType ≠ "" ∧ r.sku ≠ "" ∧ r.region ≠ "" ∧
      r.tags = (req.tags.getD []).filter (fun kv =>
        !(kv.1 == "provider" || kv.1 == "resource_type" ||
          kv.1 == "sku" || kv.1 == "region")) := by
  unfold parseResourceFromRequest at h
  cases hid : req.resourceId with
  | json d => exact absurd hid (hjson d)
  | empty =>
    rw [hid] at h
    dsimp only at h
    cases htags : req.tags with
    | none => rw [htags] at h; exact absurd h (by simp)
    | some tags =>
      rw [htags] at h
      dsimp only at h
      split_ifs at h with hc <;>
        first
          | exact Except.noConfusion h
          | (push_neg at hc; simp only [Except.ok.injEq] at h; subst h;
             exact ⟨hc.1, hc.2.1, hc.2.2.1, hc.2.2.2, rfl⟩)
  | nonJSON s =>
    rw [hid] at h
    dsimp only at h
    cases htags : req.tags with
    | none => rw [htags] at h; exact absurd h (by simp)
    | some tags =>
      rw [htags] at h
      dsimp only at h
      split_ifs at h with hc <;>
        first
          | exact Except.noConfusion h
          | (push_neg at hc; simp only [Except.ok.injEq] at h; subst h;
             exact ⟨hc.1, hc.2.1, hc.2.2.1, hc.2.2.2, rfl⟩)

/-- C4 counterexample: the JSON-ResourceId path returns the decoded
descriptor verbatim with no field validation. The request carries
ResourceId `"{}"` — valid JSON that decodes to the all-empty descriptor,
modelled as `ResourceIdField.json` of that descriptor — and resolution
succeeds, producing a descriptor whose identifying fields are all empty
instead of failing with the incomplete-resource-information error. -/
theorem jsonResourceId_bypasses_field_check :
    parseResourceFromRequest
        ⟨"", ResourceIdField.json ⟨"", "", "", "", []⟩, none, some 0, some 1⟩ =
      .ok ⟨"", "", "", "", []⟩ ∧
    (⟨"", "", "", "", []⟩ : ResourceDescriptor).provider = "" ∧
    (⟨"", "", "", "", []⟩ : ResourceDescriptor).resourceType = "" ∧
    (⟨"", "", "", "", []⟩ : ResourceDescriptor).sku = "" ∧
    (⟨"", "", "", "", []⟩ : ResourceDescriptor).region = "" :=
  ⟨rfl, rfl, rfl, rfl, rfl⟩

/-- C4 (amended): descriptors produced by the ARN path (after the
resolver's region defaulting, given a non-empty plugin region) and by the
flat-tag-map path have all four identifying fields non-empty, and the
flat-tag path fails with the incomplete-resource-information error
otherwise; a descriptor decoded from a JSON ResourceId is returned
verbatim and is exempt from the four-field check. -/
theorem resolved_descriptor_fields_nonempty (p : AWSPublicPlugin)
    (req : GetActualCostRequest) (r : ResourceDescriptor) (hp : p.region ≠ "") :
    (req.arn ≠ "" → ValidateActualCostRequest p req = .ok r →
      r.provider ≠ "" ∧ r.resourceType ≠ "" ∧ r.sku ≠ "" ∧ r.region ≠ "") ∧
    ((∀ d, req.resourceId ≠ ResourceIdField.json d) →
      parseResourceFromRequest req = .ok r →
      r.provider ≠ "" ∧ r.resourceType ≠ "" ∧ r.sku ≠ "" ∧ r.region ≠ "") := by
  constructor
  · intro harn hok
    unfold ValidateActualCostRequest at hok
    cases ht : validateTimestamps req with
    | error e => rw [ht] at hok; exact Except.noConfusion hok
    | ok u =>
      rw [ht] at hok
      dsimp only at hok
      rw [if_pos harn] at hok
      cases hpr : parseResourceFromARN req with
      | error e => rw [hpr] at hok; exact Except.noConfusion hok
      | ok r0 =>
        rw [hpr] at hok
        dsimp only at hok
        obtain ⟨hprov, htype, hsku, -⟩ := parseResourceFromARN_ok_fields req r0 hpr
        by_cases hcond : r0.region ≠ "" ∧ r0.region ≠ p.region
        · rw [if_pos hcond] at hok; exact Except.noConfusion hok
        · rw [if_neg hcond] at hok
          by_cases hreg : r0.region = ""
          · rw [if_pos hreg] at hok
            simp only [Except.ok.injEq] at hok
            subst hok
            refine ⟨?_, htype, hsku, hp⟩
            simp [hprov]
          · rw [if_neg hreg] at hok
            simp only [Except.ok.injEq] at hok
            subst hok
            exact ⟨by simp [hprov], htype, hsku, hreg⟩
  · intro hjson hok
    obtain ⟨h1, h2, h3, h4, -⟩ := parseResourceFromRequest_tagPath_fields req r hjson hok
    exact ⟨h1, h2, h3, h4⟩

/-- C4 (amended) witness: a flat tag map carrying the four identifying
keys resolves to a descriptor with all four fields non-empty. -/
theorem resolved_descriptor_fields_nonempty_witness :
    (⟨"aws", "ec2", "t3.micro", "us-east-1", [("env", "dev")]⟩ :
        ResourceDescriptor).provider ≠ "" ∧
    (⟨"aws", "ec2", "t3.micro", "us-east-1", [("env", "dev")]⟩ :
        ResourceDescriptor).resourceType ≠ "" ∧
    (⟨"aws", "ec2", "t3.micro", "us-east-1", [("env", "dev")]⟩ :
        ResourceDescriptor).sku ≠ "" ∧
    (⟨"aws", "ec2", "t3.micro", "us-east-1", [("env", "dev")]⟩ :
        ResourceDescriptor).region ≠ "" :=
  (resolved_descriptor_fields_nonempty demoPlugin
    ⟨"", ResourceIdField.empty,
      some [("provider", "aws"), ("resource_type", "ec2"), ("sku", "t3.micro"),
        ("region", "us-east-1"), ("env", "dev")], some 0, some 1⟩
    ⟨"aws", "ec2", "t3.micro", "us-east-1", [("env", "dev")]⟩ (by decide)).2
    (fun _ h => ResourceIdField.noConfusion h) rfl

/-- C10: the ARN path strips the SKU-bearing keys from the copied tag
map and the flat-tag path strips the four identifying keys; every other
tag entry is copied through unchanged. -/
theorem resolution_strips_identity_tags (req : GetActualCostRequest)
    (r : ResourceDescriptor) (k v : String) :
    (parseResourceFromARN req = .ok r →
      ((k, v) ∈ r.tags ↔ ((k, v) ∈ req.tags.getD [] ∧
        ¬ (k = "sku" ∨ k = "instanceType" ∨ k = "instance_class" ∨
           k = "type" ∨ k = "volumeType" ∨ k = "volume_type")))) ∧
    ((∀ d, req.resourceId ≠ ResourceIdField.json d) →
      parseResourceFromRequest req = .ok r →
      ((k, v) ∈ r.tags ↔ ((k, v) ∈ req.tags.getD [] ∧
        ¬ (k = "provider" ∨ k = "resource_type" ∨ k = "sku" ∨ k = "region")))) := by
  constructor
  · intro h
    obtain ⟨-, -, -, htags⟩ := parseResourceFromARN_ok_fields req r h
    rw [htags]
    simp [List.mem_filter, not_or, and_assoc]
  · intro hjson h
    obtain ⟨-, -, -, -, htags⟩ := parseResourceFromRequest_tagPath_fields req r hjson h
    rw [htags]
    simp [List.mem_filter, not_or, and_assoc]

/-- C10 witness: resolving an EC2 instance ARN with tags
`sku=t3.micro, env=dev` keeps `env` and drops `sku`. -/
theorem resolution_strips_identity_tags_witness :
    ("env", "dev") ∈
      (⟨"aws", "ec2", "t3.micro", "us-east-1", [("env", "dev")]⟩ :
        ResourceDescriptor).tags ↔
    (("env", "dev") ∈ ([("sku", "t3.micro"), ("env", "dev")] : TagMap) ∧
      ¬ ("env" = "sku" ∨ "env" = "instanceType" ∨ "env" = "instance_class" ∨
         "env" = "type" ∨ "env" = "volumeType" ∨ "env" = "volume_type")) :=
  (resolution_strips_identity_tags
    ⟨"arn:aws:ec2:us-east-1:123456789012:instance/i-abc", ResourceIdField.empty,
      some [("sku", "t3.micro"), ("env", "dev")], some 0, some 1⟩
    ⟨"aws", "ec2", "t3.micro", "us-east-1", [("env", "dev")]⟩ "env" "dev").1 rfl

end AWSPublic
